import Mathlib

/-! Verification development for the gloo WebSocket crate's reconnect core
(crates/websocket). The definitions below are a shallow embedding of the
Rust source: `common.rs` (ReconnectConfig over the `backoff` crate's
ExponentialBackoff), `cb/core.rs` (WebSocketCore: the event adapters, retry
scheduling and close suppression), `cb/builder.rs` (WebSocketBuilder) and
`cb.rs` (the public WebSocket facade). Event-driven mutation of the shared
`Rc<RefCell<...>>` state is embedded as a step function on an explicit state
type; the externally-observable effects of a step (creating a transport
handle, scheduling a timer, invoking a user callback, requesting a
transport-level close) are recorded as an ordered action list. -/

namespace Gloo

/-- Rust std `Duration`, embedded as a nanosecond count (`Duration` stores
seconds and nanoseconds; a single nanosecond count is the same data). -/
structure Duration where
  nanos : Nat
deriving DecidableEq, Repr

/-- Rust `Duration::as_secs`: whole seconds, fractional part truncated. -/
def Duration.as_secs (d : Duration) : Nat := d.nanos / 1000000000

/-- Rust `Duration::as_millis`: whole milliseconds, fractional part truncated. -/
def Duration.as_millis (d : Duration) : Nat := d.nanos / 1000000

/-- The Rust cast `u64 as i32` (core.rs lines 167 and 205): keep the low 32
bits and reinterpret as two's complement. -/
def toI32 (n : Nat) : Int :=
  let m := n % 4294967296
  if m < 2147483648 then (m : Int) else (m : Int) - 4294967296

/-- Modelled from the spec: the BackoffPolicy state of the external `backoff`
crate's `ExponentialBackoff` (a dependency, not part of this repository).
Per section 4.1 of the spec, `next(current_interval)` returns a delay
uniformly sampled from `[current_interval*(1-r), current_interval*(1+r)]`
and then sets `new_interval = min(current_interval * m, max_interval)`;
`reset()` returns the interval to its initial value. Intervals are held in
nanoseconds; the randomization factor `r` and multiplier `m` are exact
rationals. The crate's defaults: initial interval 500ms, randomization
factor 0.5, multiplier 1.5, max interval 60s. -/
structure ExponentialBackoff where
  current_interval : Nat
  initial_interval : Nat
  randomization_factor : ℚ
  multiplier : ℚ
  max_interval : Nat
  max_elapsed_time : Option Nat
deriving DecidableEq, Repr

/-- Modelled from the spec: the interval advance of BackoffPolicy, section 4.1:
`new_interval = min(current_interval * m, max_interval)`. -/
def ExponentialBackoff.incrementInterval (b : ExponentialBackoff) : ExponentialBackoff :=
  { b with
      current_interval :=
        min (((b.current_interval : ℚ) * b.multiplier).floor.toNat) b.max_interval }

/-- Modelled from the spec: the randomized delay of BackoffPolicy, section 4.1,
is a uniform sample from `[current*(1-r), current*(1+r)]`. The sample is an
explicit argument; this predicate states that it lies in that range. -/
def ExponentialBackoff.sampleInRange (b : ExponentialBackoff) (sample : Nat) : Prop :=
  (b.current_interval : ℚ) * (1 - b.randomization_factor) ≤ (sample : ℚ) ∧
    (sample : ℚ) ≤ (b.current_interval : ℚ) * (1 + b.randomization_factor)

instance (b : ExponentialBackoff) (sample : Nat) : Decidable (b.sampleInRange sample) :=
  inferInstanceAs (Decidable (_ ∧ _))

/-- Modelled from the spec: one `Backoff::next_backoff` step of the external
crate: return the randomized sample as the delay, advance the interval. The
crate returns `None` only once `max_elapsed_time` is exceeded; the repository
pins `max_elapsed_time = None` (common.rs line 137), so that branch is
unreachable for every configuration this crate constructs and the delay is
always produced. -/
def ExponentialBackoff.next_backoff (b : ExponentialBackoff) (sample : Nat) :
    Duration × ExponentialBackoff :=
  (⟨sample⟩, b.incrementInterval)

/-- Modelled from the spec: `reset()` of BackoffPolicy, section 4.1: the
current interval returns to its initial configured value. -/
def ExponentialBackoff.reset (b : ExponentialBackoff) : ExponentialBackoff :=
  { b with current_interval := b.initial_interval }

/-- The `ExponentialBackoff` the repository's `ReconnectConfig::default` builds
(common.rs lines 132-140): crate defaults (initial interval 500ms,
randomization factor 0.5), then `max_interval` set to 60s, `multiplier` to
1.5 and `max_elapsed_time` to `None`. -/
def ExponentialBackoff.gloo_default : ExponentialBackoff :=
  { current_interval := 500000000
    initial_interval := 500000000
    randomization_factor := 1 / 2
    multiplier := 3 / 2
    max_interval := 60000000000
    max_elapsed_time := none }

/-- `ReconnectConfig` (common.rs lines 64-69): the reconnecting flag plus the
backoff state. The `retry_closure` field only keeps the scheduled closure
alive (common.rs lines 126-129) and carries no data the state machine reads;
the scheduling itself is recorded as an action of the step function below. -/
structure ReconnectConfig where
  is_reconnecting : Bool
  backoff : ExponentialBackoff
deriving DecidableEq, Repr

/-- `ReconnectConfig::default` (common.rs lines 132-140). -/
def ReconnectConfig.default : ReconnectConfig :=
  { is_reconnecting := false, backoff := ExponentialBackoff.gloo_default }

/-- `ReconnectConfig::new` (common.rs lines 73-75). -/
def ReconnectConfig.new : ReconnectConfig := ReconnectConfig.default

/-- `ReconnectConfig::new_custom` (common.rs lines 90-96): start from the
default and overwrite the three primary backoff parameters. -/
def ReconnectConfig.new_custom (randomization_factor multiplier : ℚ)
    (max_interval : Duration) : ReconnectConfig :=
  { ReconnectConfig.default with
      backoff :=
        { ReconnectConfig.default.backoff with
            randomization_factor := randomization_factor
            multiplier := multiplier
            max_interval := max_interval.nanos } }

/-- `ReconnectConfig::next_backoff` (common.rs lines 111-115): delegate to the
backoff crate's `next_backoff` and unwrap. Note that the body touches only
`self.backoff`; the `is_reconnecting` field is not written. -/
def ReconnectConfig.next_backoff (cfg : ReconnectConfig) (sample : Nat) :
    Duration × ReconnectConfig :=
  let p := cfg.backoff.next_backoff sample
  (p.1, { cfg with backoff := p.2 })

/-- `ReconnectConfig::reset` (common.rs lines 121-124): clear the flag and
reset the backoff state. -/
def ReconnectConfig.reset (cfg : ReconnectConfig) : ReconnectConfig :=
  { cfg with is_reconnecting := false, backoff := cfg.backoff.reset }

/-- `WsMessage` (common.rs lines 27-30). Bytes of the binary payload are kept
as a list of `Nat` values. -/
inductive WsMessage where
  | Text (s : String)
  | Binary (b : List Nat)
deriving DecidableEq, Repr

/-- The data field of a platform `MessageEvent` as `build_onmessage` classifies
it (core.rs lines 84-103): either a JS string, or (because the socket's
binary type is set to `ArrayBuffer`, core.rs line 50) an `ArrayBuffer`. -/
inductive JsData where
  | str (s : String)
  | buf (b : List Nat)
deriving DecidableEq, Repr

/-- `js_sys::Uint8Array::copy_to` (used at core.rs line 100): overwrite the
destination element-wise from the source; the caller guarantees equal
lengths ("We need to use exact length to avoid panic", core.rs line 99). -/
def u8buf_copy_to (src dst : List Nat) : List Nat :=
  (List.range dst.length).map fun i => src.getD i (dst.getD i 0)

/-- The body of the `message` adapter closure (core.rs lines 84-103): a string
payload becomes `WsMessage::Text`; anything else is an `ArrayBuffer`, read
into a zeroed buffer of exactly its byte length and delivered as
`WsMessage::Binary`. -/
def onmessageDecode (data : JsData) : WsMessage :=
  match data with
  | .str s => .Text s
  | .buf b =>
      let decode_buf := List.replicate b.length 0
      .Binary (u8buf_copy_to b decode_buf)

/-- Which of the four optional user callbacks the `WebSocketBuilder` holds
(cb/builder.rs lines 32-42). The closures themselves are opaque user code;
only their presence steers the core's control flow. -/
structure HandlerFlags where
  hasOnMessage : Bool
  hasOnOpen : Bool
  hasOnError : Bool
  hasOnClose : Bool
deriving DecidableEq, Repr

/-- The four notification kinds an adapter can be bound to. -/
inductive AdapterKind where
  | message
  | opened
  | error
  | closed
deriving DecidableEq, Repr

/-- One entry of the builder's `cb_store` (cb/builder.rs line 48): an optional
adapter closure. A stored adapter is tagged with the kind it handles and the
generation number of the transport handle it was built for. -/
abbrev StoredSlot := Option (AdapterKind × Nat)

/-- `WebSocketCore::init_new_websocket` (core.rs lines 225-253) as it affects
the callback store: build the four optional adapters (`build_onmessage`
returns one iff a user message callback exists, core.rs 79-82;
`build_onopen` iff a user open callback or a reconnect config exists, core.rs
111-113; `build_onerror` iff a user error callback exists, core.rs 132-135;
`build_onclose` iff a user close callback or a reconnect config exists,
core.rs 151-153), register them on the handle of generation `gen`, then clear
the store and push the four entries (core.rs 245-252). -/
def init_new_websocket (flags : HandlerFlags) (reconnectPresent : Bool) (gen : Nat) :
    List StoredSlot :=
  [ if flags.hasOnMessage then some (.message, gen) else none,
    if flags.hasOnOpen || reconnectPresent then some (.opened, gen) else none,
    if flags.hasOnError then some (.error, gen) else none,
    if flags.hasOnClose || reconnectPresent then some (.closed, gen) else none ]

/-- The mutable state the core's shared `Rc<RefCell<...>>` cells hold:
the builder's immutable callback presence, the shared `ReconnectConfig`
(cb/builder.rs line 45), the `is_closing` suppression switch (cb/builder.rs
line 51), the current transport handle represented by its generation number
(core.rs line 32: the `web_sys::WebSocket` cell, replaced wholesale on
reconnect), the callback store, and a marker for the `unwrap` on
`builder.reconnect` in the retry closure (core.rs line 198), which would
panic were it ever reached with no reconnect config. -/
structure CoreState where
  flags : HandlerFlags
  reconnect : Option ReconnectConfig
  is_closing : Bool
  wsGen : Nat
  cbStore : List StoredSlot
  crashed : Bool
deriving DecidableEq, Repr

/-- Externally observable effects of one event-driven step, in the order the
code performs them. `scheduleTimer t` records the `i32` value handed to
`window.set_timeout_with_callback_and_timeout_and_arguments_0` (core.rs
lines 256-261); the platform interprets that argument in milliseconds. -/
inductive Action where
  | setClosingFlag
  | transportClose (code : Nat) (reason : Option String)
  | createHandle
  | installAdapters
  | scheduleTimer (timeoutArg : Int)
  | resetBackoff
  | userOnMessage (m : WsMessage)
  | userOnOpen
  | userOnError
  | userOnClose
deriving DecidableEq, Repr

/-- Whether an action is the creation of a new transport handle. -/
def Action.isCreateHandle : Action → Bool
  | .createHandle => true
  | _ => false

/-- Whether an action is the scheduling of a retry timer. -/
def Action.isScheduleTimer : Action → Bool
  | .scheduleTimer _ => true
  | _ => false

/-- The error type of a failed platform call (`JsValue` on the Rust side),
kept abstract. -/
inductive JsErr where
  | err
deriving DecidableEq, Repr

/-- The platform transport's response to a close request
(`web_sys::WebSocket::close_with_code` / `close_with_code_and_reason`,
external to this repository): an uninterpreted function of the arguments
alone. Theorems quantify over it. -/
abbrev TransportCloseFn := Nat → Option String → Except JsErr Unit

/-- `WebSocketCore::close` (core.rs lines 64-71): set `is_closing` to `true`,
then request a close on the current transport handle with the given code and
reason, returning the transport's result unchanged. The action list records
the order: the suppression flag is written before the transport request. -/
def WebSocketCore.close (pc : TransportCloseFn) (s : CoreState) (code : Nat)
    (reason : Option String) : (CoreState × List Action) × Except JsErr Unit :=
  (({ s with is_closing := true },
    [Action.setClosingFlag, Action.transportClose code reason]),
   pc code reason)

/-- `WebSocket::close` (cb.rs lines 65-67): default the code to 1005 and
delegate to the core. -/
def WebSocket.close (pc : TransportCloseFn) (s : CoreState) (code : Option Nat)
    (reason : Option String) : (CoreState × List Action) × Except JsErr Unit :=
  WebSocketCore.close pc s (code.getD 1005) reason

/-- `impl Drop for WebSocket` (cb.rs lines 104-109): call `close(None, None)`
and discard the result. -/
def WebSocket.drop (pc : TransportCloseFn) (s : CoreState) : CoreState × List Action :=
  (WebSocket.close pc s none none).1

/-- External stimuli driving the core: a user-initiated close, the four
platform notifications, and the firing of a scheduled retry timer. The
nondeterministic environment inputs ride on the event: the backoff sample
drawn when a delay is computed, and whether the synchronous construction of
a new transport handle succeeds when a retry fires. -/
inductive Event where
  | userClose (code : Nat) (reason : Option String)
  | notifyOpen
  | notifyMessage (data : JsData)
  | notifyError
  | notifyClose (sample : Nat)
  | retryFire (constructOk : Bool) (sample : Nat)
deriving DecidableEq, Repr

/-- The body of the `open` adapter closure (core.rs lines 115-126): reset the
reconnect config first if one exists, then invoke the user's open callback
if one exists. The adapter itself exists iff a user open callback or a
reconnect config exists (core.rs lines 111-113); with neither, the
notification reaches no handler. -/
def onopen_event (s : CoreState) : CoreState × List Action :=
  if s.flags.hasOnOpen || s.reconnect.isSome then
    match s.reconnect with
    | some cfg =>
        ({ s with reconnect := some cfg.reset },
         Action.resetBackoff :: (if s.flags.hasOnOpen then [Action.userOnOpen] else []))
    | none => (s, if s.flags.hasOnOpen then [Action.userOnOpen] else [])
  else (s, [])

/-- The body of the `message` adapter closure (core.rs lines 84-103): decode
the payload and invoke the user's message callback once. The adapter exists
iff a user message callback exists (core.rs lines 79-82). -/
def onmessage_event (s : CoreState) (data : JsData) : CoreState × List Action :=
  if s.flags.hasOnMessage then (s, [Action.userOnMessage (onmessageDecode data)])
  else (s, [])

/-- The body of the `error` adapter closure (core.rs lines 137-140): invoke
the user's error callback; no reconnect side effects. The adapter exists iff
a user error callback exists (core.rs lines 132-135). -/
def onerror_event (s : CoreState) : CoreState × List Action :=
  if s.flags.hasOnError then (s, [Action.userOnError]) else (s, [])

/-- The body of the `close` adapter closure (core.rs lines 155-180): if
`is_closing` is unset and a reconnect config exists, compute the next
backoff, schedule the retry closure with `next_backoff.as_secs() as i32` as
the timeout argument (core.rs lines 161-171), and only then invoke the
user's close callback if one exists (core.rs lines 176-179). The adapter
exists iff a user close callback or a reconnect config exists (core.rs lines
151-153). -/
def onclose_event (s : CoreState) (sample : Nat) : CoreState × List Action :=
  if s.flags.hasOnClose || s.reconnect.isSome then
    let sched : CoreState × List Action :=
      if s.is_closing then (s, [])
      else
        match s.reconnect with
        | some cfg =>
            let p := cfg.next_backoff sample
            ({ s with reconnect := some p.2 },
             [Action.scheduleTimer (toI32 p.1.as_secs)])
        | none => (s, [])
    (sched.1, sched.2 ++ (if s.flags.hasOnClose then [Action.userOnClose] else []))
  else (s, [])

/-- The body of the retry closure (`build_retry_closure`, core.rs lines
184-222): if `is_closing` became `true` while the timer was pending, return
without doing anything (lines 188-190); otherwise attempt to build a new
transport handle (line 193). On success, replace the owned handle and
rebind the adapters through `init_new_websocket` (lines 214-220). On
failure, `unwrap` the reconnect config (line 198, a panic were it `None`),
compute another backoff and schedule another retry with
`next_backoff.as_secs() as i32` (lines 199-209), creating no handle. -/
def retry_fire_event (s : CoreState) (constructOk : Bool) (sample : Nat) :
    CoreState × List Action :=
  if s.is_closing then (s, [])
  else if constructOk then
    ({ s with
        wsGen := s.wsGen + 1
        cbStore := init_new_websocket s.flags s.reconnect.isSome (s.wsGen + 1) },
     [Action.createHandle, Action.installAdapters])
  else
    match s.reconnect with
    | some cfg =>
        let p := cfg.next_backoff sample
        ({ s with reconnect := some p.2 },
         [Action.scheduleTimer (toI32 p.1.as_secs)])
    | none => ({ s with crashed := true }, [])

/-- One event-driven transition of the core: dispatch to the adapter or
operation the event targets. -/
def step (pc : TransportCloseFn) (s : CoreState) (e : Event) : CoreState × List Action :=
  match e with
  | .userClose code reason => (WebSocketCore.close pc s code reason).1
  | .notifyOpen => onopen_event s
  | .notifyMessage data => onmessage_event s data
  | .notifyError => onerror_event s
  | .notifyClose sample => onclose_event s sample
  | .retryFire ok sample => retry_fire_event s ok sample

/-- Run a sequence of events from a state, accumulating all emitted actions
in order. -/
def run (pc : TransportCloseFn) (s : CoreState) (evs : List Event) :
    CoreState × List Action :=
  match evs with
  | [] => (s, [])
  | e :: rest =>
      let p := step pc s e
      let q := run pc p.1 rest
      (q.1, p.2 ++ q.2)

/-- The `CoreState` right after `WebSocketCore::new` (core.rs lines 57-61) ran
on a freshly built handle of generation 0: `is_closing` starts `false`
(cb/builder.rs line 66) and `init_new_websocket` has installed the adapters. -/
def initialCoreState (flags : HandlerFlags) (reconnect : Option ReconnectConfig) :
    CoreState :=
  { flags := flags
    reconnect := reconnect
    is_closing := false
    wsGen := 0
    cbStore := init_new_websocket flags reconnect.isSome 0
    crashed := false }

/-- `WebSocketBuilder::build` (cb/builder.rs lines 76-83): build the initial
transport handle — propagating a synchronous construction failure to the
caller via `?` — then initialize the core. `constructOk` is whether
`WebSocketCore::build_new_websocket` succeeded. -/
def WebSocketBuilder.build (constructOk : Bool) (flags : HandlerFlags)
    (reconnect : Option ReconnectConfig) : Except JsErr CoreState :=
  if constructOk then .ok (initialCoreState flags reconnect) else .error .err

/-- Milliseconds actually awaited by the platform timer for a handed timeout
argument. Modelled from the spec: the timer primitive `schedule(delay,
callback)` of section 6 is the platform `setTimeout`, whose integer timeout
argument is a count of milliseconds. -/
def platformTimerDelayMillis (timeoutArg : Int) : Int := timeoutArg

/-- A transport whose close requests all succeed (used for concrete runs). -/
def pcOk : TransportCloseFn := fun _ _ => .ok ()

/-- A transport whose close requests all fail (used to exercise the error
path of a close request). -/
def pcFail : TransportCloseFn := fun _ _ => .error .err

/-- The callback presence of `WebSocketBuilder::new` before any setter ran:
no user callbacks (cb/builder.rs lines 60-63). -/
def defaultFlags : HandlerFlags := ⟨false, false, false, false⟩

/-- A builder configuration with all four user callbacks supplied. -/
def allFlags : HandlerFlags := ⟨true, true, true, true⟩

/-- A fully configured fresh core: all callbacks set, default reconnect. -/
def s0 : CoreState := initialCoreState allFlags (some ReconnectConfig.default)

/-- The core exactly as `WebSocket::connect(url).build()` leaves it with no
setters called: no user callbacks, default reconnect config. -/
def sDef : CoreState := initialCoreState defaultFlags (some ReconnectConfig.default)

/-- A reconnect config whose backoff interval has reached the 60s cap, as it
stands after sufficiently many consecutive `next_backoff` calls. -/
def cfgCap : ReconnectConfig :=
  { ReconnectConfig.default with
      backoff := { ExponentialBackoff.gloo_default with current_interval := 60000000000 } }

/-- A fresh default core whose backoff interval sits at the 60s cap. -/
def sCap : CoreState := initialCoreState defaultFlags (some cfgCap)

/-! Helper lemmas about single steps and runs. -/

/-- Reading a list at an index below its length through `getD` is plain
indexing. -/
theorem getD_eq_getElem_of_lt (l : List Nat) (i d : Nat) (h : i < l.length) :
    l.getD i d = l[i] := by
  simp [List.getD_eq_getElem?_getD, List.getElem?_eq_getElem h]

/-- Copying a byte buffer into a zeroed buffer of exactly its length yields
the original bytes (the decode path of the message adapter, core.rs
lines 98-100). -/
theorem u8buf_copy_to_replicate (b : List Nat) :
    u8buf_copy_to b (List.replicate b.length 0) = b := by
  unfold u8buf_copy_to
  apply List.ext_getElem
  · simp
  · intro i h1 h2
    simp only [List.getElem_map, List.getElem_range, List.length_replicate] at *
    exact getD_eq_getElem_of_lt b i _ h2

/-- Once `is_closing` is set, no event clears it: no handler writes `false`
into the switch. -/
theorem step_preserves_closing (pc : TransportCloseFn) (s : CoreState) (e : Event)
    (h : s.is_closing = true) : ((step pc s e).1).is_closing = true := by
  cases e <;>
    simp only [step, WebSocketCore.close, onopen_event, onmessage_event, onerror_event,
      onclose_event, retry_fire_event, h] <;>
    repeat' first
      | rfl
      | (split <;> try simp_all)

/-- From a state with `is_closing` set, no step creates a transport handle or
schedules a retry timer: the close adapter skips the whole reconnect branch
(core.rs line 158) and the retry closure returns at once (core.rs
lines 188-190). -/
theorem step_closed_actions_clean (pc : TransportCloseFn) (s : CoreState) (e : Event)
    (h : s.is_closing = true) :
    ((step pc s e).2).all (fun a => !a.isCreateHandle && !a.isScheduleTimer) = true := by
  cases e <;>
    simp only [step, WebSocketCore.close, onopen_event, onmessage_event, onerror_event,
      onclose_event, retry_fire_event, h] <;>
    repeat' first
      | rfl
      | (split <;> try simp_all [Action.isCreateHandle, Action.isScheduleTimer])

/-- `is_closing` stays set across any event sequence. -/
theorem run_preserves_closing (pc : TransportCloseFn) (s : CoreState) (evs : List Event)
    (h : s.is_closing = true) : ((run pc s evs).1).is_closing = true := by
  induction evs generalizing s with
  | nil => simpa [run] using h
  | cons e rest ih =>
      simp only [run]
      exact ih _ (step_preserves_closing pc s e h)

/-- Across any event sequence from a state with `is_closing` set, no action
creates a handle or schedules a timer. -/
theorem run_closed_actions_clean (pc : TransportCloseFn) (s : CoreState) (evs : List Event)
    (h : s.is_closing = true) :
    ((run pc s evs).2).all (fun a => !a.isCreateHandle && !a.isScheduleTimer) = true := by
  induction evs generalizing s with
  | nil => simp [run]
  | cons e rest ih =>
      simp only [run, List.all_append, Bool.and_eq_true]
      exact ⟨step_closed_actions_clean pc s e h, ih _ (step_preserves_closing pc s e h)⟩

/-- No event installs a reconnect config where none was configured:
"no reconnect" is a construction-time choice. -/
theorem step_preserves_no_reconnect (pc : TransportCloseFn) (s : CoreState) (e : Event)
    (h : s.reconnect = none) : ((step pc s e).1).reconnect = none := by
  cases e <;>
    simp only [step, WebSocketCore.close, onopen_event, onmessage_event, onerror_event,
      onclose_event, retry_fire_event, h] <;>
    repeat' first
      | rfl
      | (split <;> try simp_all)

/-- With no reconnect config, no step schedules a timer: both scheduling
sites sit under a `Some(cfg)` match on the config (core.rs lines 159 and
198). -/
theorem step_no_reconnect_no_timer (pc : TransportCloseFn) (s : CoreState) (e : Event)
    (h : s.reconnect = none) :
    ((step pc s e).2).all (fun a => !a.isScheduleTimer) = true := by
  cases e <;>
    simp only [step, WebSocketCore.close, onopen_event, onmessage_event, onerror_event,
      onclose_event, retry_fire_event, h] <;>
    repeat' first
      | rfl
      | (split <;> try simp_all [Action.isScheduleTimer])

/-- With no reconnect config, no event sequence ever schedules a timer. -/
theorem run_no_reconnect_no_timer (pc : TransportCloseFn) (s : CoreState) (evs : List Event)
    (h : s.reconnect = none) :
    ((run pc s evs).2).all (fun a => !a.isScheduleTimer) = true := by
  induction evs generalizing s with
  | nil => simp [run]
  | cons e rest ih =>
      simp only [run, List.all_append, Bool.and_eq_true]
      exact ⟨step_no_reconnect_no_timer pc s e h, ih _ (step_preserves_no_reconnect pc s e h)⟩

/-- Every adapter `init_new_websocket` stores is tagged with the generation of
the handle it was installed on. -/
theorem mem_init_new_websocket_gen (flags : HandlerFlags) (rp : Bool) (gen : Nat)
    (slot : StoredSlot) (hmem : slot ∈ init_new_websocket flags rp gen)
    (k : AdapterKind) (g : Nat) (hs : slot = some (k, g)) : g = gen := by
  simp only [init_new_websocket, List.mem_cons, List.not_mem_nil, or_false] at hmem
  rcases hmem with h | h | h | h <;>
    (subst h; split at hs <;> simp_all)

/-- A retry timer that fires against a state whose `is_closing` switch is set
does nothing at all: same state, no actions (core.rs lines 188-190). -/
theorem step_closed_retry_noop (pc : TransportCloseFn) (s : CoreState)
    (h : s.is_closing = true) (ok : Bool) (sample : Nat) :
    step pc s (.retryFire ok sample) = (s, []) := by
  simp [step, retry_fire_event, h]

/-! The claims. -/

/-- C1: once `close()` has been called — at any state, including while a
scheduled retry timer is pending — no later event ever creates a transport
handle or schedules another retry: every action emitted by any subsequent
event sequence is neither `createHandle` nor `scheduleTimer`, and a retry
closure that fires after the close is a complete no-op, because it checks
the user-initiated-close flag at fire time (core.rs lines 188-190) and the
flag is never cleared. -/
theorem userClose_suppresses_future_handles (pc : TransportCloseFn) (s : CoreState)
    (code : Nat) (reason : Option String) (evs : List Event) :
    (((run pc (step pc s (.userClose code reason)).1 evs).2).all
        (fun a => !a.isCreateHandle && !a.isScheduleTimer)) = true
    ∧ ∀ ok sample,
        step pc (step pc s (.userClose code reason)).1 (.retryFire ok sample)
          = ((step pc s (.userClose code reason)).1, []) := by
  have hc : ((step pc s (.userClose code reason)).1).is_closing = true := rfl
  exact ⟨run_closed_actions_clean pc _ evs hc,
    fun ok sample => step_closed_retry_noop pc _ hc ok sample⟩

/-- C1 witness: a concrete run — close, then a pending retry fires and a
stale close notification arrives — creates no handle and schedules no
timer. -/
theorem userClose_suppresses_future_handles_witness :
    (((run pcOk (step pcOk s0 (.userClose 1000 none)).1
          [Event.retryFire true 0, Event.notifyClose 500000000]).2).all
        (fun a => !a.isCreateHandle && !a.isScheduleTimer)) = true
    ∧ ∀ ok sample,
        step pcOk (step pcOk s0 (.userClose 1000 none)).1 (.retryFire ok sample)
          = ((step pcOk s0 (.userClose 1000 none)).1, []) :=
  userClose_suppresses_future_handles pcOk s0 1000 none
    [Event.retryFire true 0, Event.notifyClose 500000000]

/-- C2 is false on the code: the close adapter hands
`next_backoff().as_secs() as i32` to the platform scheduler (core.rs
line 167), whose timeout argument counts milliseconds. Under the default
configuration the first backoff delay is a sample from [250ms, 750ms] —
500ms is such a sample, is in range, yet the value handed to the scheduler
is 0, a 0ms timer, not the 500ms delay. Even at the 60s interval cap the
handed value is 60, a 60ms timer, not the 60000ms delay. -/
theorem scheduled_timeout_drops_backoff_delay :
    ExponentialBackoff.sampleInRange ReconnectConfig.default.backoff 500000000
    ∧ (step pcOk sDef (.notifyClose 500000000)).2 = [Action.scheduleTimer 0]
    ∧ platformTimerDelayMillis 0 = 0
    ∧ (Duration.mk 500000000).as_millis = 500
    ∧ (0 : Int) ≠ 500
    ∧ ExponentialBackoff.sampleInRange cfgCap.backoff 60000000000
    ∧ (step pcOk sCap (.notifyClose 60000000000)).2 = [Action.scheduleTimer 60]
    ∧ platformTimerDelayMillis 60 = 60
    ∧ (Duration.mk 60000000000).as_millis = 60000
    ∧ (60 : Int) ≠ 60000 := by
  refine ⟨⟨?_, ?_⟩, by decide, rfl, by decide, by decide, ⟨?_, ?_⟩, by decide, rfl,
      by decide, by decide⟩ <;>
    norm_num [ExponentialBackoff.sampleInRange, ReconnectConfig.default, cfgCap,
      ExponentialBackoff.gloo_default]

/-- C3 is false on the code: `ReconnectConfig::next_backoff` (common.rs lines
111-115) never writes the `is_reconnecting` field — no code path sets it to
`true` — so immediately after a `next_backoff()` call on a fresh default
config, `is_reconnecting()` still returns `false`, and in general the call
leaves the flag exactly as it was. -/
theorem next_backoff_never_marks_reconnecting :
    ((ReconnectConfig.default.next_backoff 500000000).2).is_reconnecting = false
    ∧ ∀ cfg sample,
        ((ReconnectConfig.next_backoff cfg sample).2).is_reconnecting
          = cfg.is_reconnecting :=
  ⟨rfl, fun _ _ => rfl⟩

/-- C4: on a close notification with the flag unset and a reconnect config
present, the retry is scheduled strictly before the user's close callback
runs (the schedule action heads the action list); with the flag set or no
reconnect config, no timer is scheduled and only the user's close callback
(if any) runs — and with no reconnect config, no event sequence whatsoever
ever schedules a timer. -/
theorem onclose_schedules_retry_before_user_callback (pc : TransportCloseFn)
    (s : CoreState) (sample : Nat) (evs : List Event) :
    (∀ cfg, s.is_closing = false → s.reconnect = some cfg →
      (step pc s (.notifyClose sample)).2
        = Action.scheduleTimer (toI32 ((cfg.next_backoff sample).1.as_secs))
            :: (if s.flags.hasOnClose then [Action.userOnClose] else []))
    ∧ (s.is_closing = true ∨ s.reconnect = none →
      (step pc s (.notifyClose sample)).2
        = (if s.flags.hasOnClose then [Action.userOnClose] else []))
    ∧ (s.reconnect = none →
      ((run pc s evs).2).all (fun a => !a.isScheduleTimer) = true) := by
  refine ⟨?_, ?_, fun h => run_no_reconnect_no_timer pc s evs h⟩
  · intro cfg h1 h2
    simp [step, onclose_event, h1, h2]
  · intro h
    unfold step onclose_event
    rcases h with h | h <;> rw [h] <;>
      repeat' first
        | rfl
        | (split <;> try simp_all)

/-- C4 witness: concrete instances of both branches — a fresh default core
schedules then (would) notify, and a closed or reconnect-free core only runs
the user callback. -/
theorem onclose_schedules_retry_before_user_callback_witness :
    (∀ cfg, s0.is_closing = false → s0.reconnect = some cfg →
      (step pcOk s0 (.notifyClose 500000000)).2
        = Action.scheduleTimer (toI32 ((cfg.next_backoff 500000000).1.as_secs))
            :: (if s0.flags.hasOnClose then [Action.userOnClose] else []))
    ∧ (s0.is_closing = true ∨ s0.reconnect = none →
      (step pcOk s0 (.notifyClose 500000000)).2
        = (if s0.flags.hasOnClose then [Action.userOnClose] else []))
    ∧ (s0.reconnect = none →
      ((run pcOk s0 [Event.notifyClose 0, Event.retryFire false 0]).2).all
        (fun a => !a.isScheduleTimer) = true) :=
  onclose_schedules_retry_before_user_callback pcOk s0 500000000
    [Event.notifyClose 0, Event.retryFire false 0]

/-- C5: the open adapter resets the reconnect config (when present) before
any user open callback runs — the reset action heads the action list
(core.rs lines 115-126) — and afterwards `is_reconnecting()` is `false` and
the backoff interval is back at its initial configured value. -/
theorem onopen_resets_backoff_before_user_callback (pc : TransportCloseFn)
    (s : CoreState) (cfg : ReconnectConfig) (h : s.reconnect = some cfg) :
    (step pc s .notifyOpen).2
        = Action.resetBackoff :: (if s.flags.hasOnOpen then [Action.userOnOpen] else [])
    ∧ ((step pc s .notifyOpen).1).reconnect = some cfg.reset
    ∧ cfg.reset.is_reconnecting = false
    ∧ cfg.reset.backoff.current_interval = cfg.backoff.initial_interval := by
  refine ⟨?_, ?_, rfl, rfl⟩ <;> simp [step, onopen_event, h]

/-- C5 witness: the fully configured fresh core at its default reconnect
config. -/
theorem onopen_resets_backoff_before_user_callback_witness :
    (step pcOk s0 .notifyOpen).2
        = Action.resetBackoff :: (if s0.flags.hasOnOpen then [Action.userOnOpen] else [])
    ∧ ((step pcOk s0 .notifyOpen).1).reconnect = some ReconnectConfig.default.reset
    ∧ ReconnectConfig.default.reset.is_reconnecting = false
    ∧ ReconnectConfig.default.reset.backoff.current_interval
        = ReconnectConfig.default.backoff.initial_interval :=
  onopen_resets_backoff_before_user_callback pcOk s0 ReconnectConfig.default rfl

/-- C6: when a scheduled retry fires with the flag unset and the synchronous
construction of the new transport handle fails, the failure is absorbed:
the step's only action is scheduling another retry from a freshly computed
backoff — no handle is created, no user callback or error surfaces, and the
state changes only in its advanced backoff config. A synchronous
construction error reaches the caller only through the builder's `build()`
(cb/builder.rs lines 76-83), where it is propagated directly. -/
theorem retry_construction_failure_absorbed (pc : TransportCloseFn) (s : CoreState)
    (cfg : ReconnectConfig) (sample : Nat) (flags : HandlerFlags)
    (rc : Option ReconnectConfig) :
    (s.is_closing = false → s.reconnect = some cfg →
      step pc s (.retryFire false sample)
        = ({ s with reconnect := some (cfg.next_backoff sample).2 },
           [Action.scheduleTimer (toI32 ((cfg.next_backoff sample).1.as_secs))]))
    ∧ WebSocketBuilder.build false flags rc = .error .err
    ∧ WebSocketBuilder.build true flags rc = .ok (initialCoreState flags rc) := by
  refine ⟨?_, rfl, rfl⟩
  intro h1 h2
  simp [step, retry_fire_event, h1, h2]

/-- C6 witness: a fresh default core whose first retry hits a construction
failure only reschedules. -/
theorem retry_construction_failure_absorbed_witness :
    (sDef.is_closing = false → sDef.reconnect = some ReconnectConfig.default →
      step pcOk sDef (.retryFire false 500000000)
        = ({ sDef with
              reconnect := some (ReconnectConfig.default.next_backoff 500000000).2 },
           [Action.scheduleTimer
              (toI32 ((ReconnectConfig.default.next_backoff 500000000).1.as_secs))]))
    ∧ WebSocketBuilder.build false defaultFlags (some ReconnectConfig.default)
        = .error .err
    ∧ WebSocketBuilder.build true defaultFlags (some ReconnectConfig.default)
        = .ok (initialCoreState defaultFlags (some ReconnectConfig.default)) :=
  retry_construction_failure_absorbed pcOk sDef ReconnectConfig.default 500000000
    defaultFlags (some ReconnectConfig.default)

/-- C7: `close()` sets the user-initiated-close flag, a second call with the
same arguments returns the state completely unchanged (a no-op, in
particular on the flag) and returns exactly the same transport result as
the first — the wrapper adds no failure of its own, whatever the platform
answers — and the flag is one-way: no operation or notification across any
event sequence ever clears it. -/
theorem close_flag_one_way_and_idempotent (pc : TransportCloseFn) (s : CoreState)
    (code : Nat) (reason : Option String) (evs : List Event) :
    ((WebSocketCore.close pc s code reason).1.1).is_closing = true
    ∧ (WebSocketCore.close pc ((WebSocketCore.close pc s code reason).1.1)
          code reason).1.1
        = (WebSocketCore.close pc s code reason).1.1
    ∧ (WebSocketCore.close pc ((WebSocketCore.close pc s code reason).1.1)
          code reason).2
        = (WebSocketCore.close pc s code reason).2
    ∧ (s.is_closing = true → ((run pc s evs).1).is_closing = true) :=
  ⟨rfl, rfl, rfl, fun h => run_preserves_closing pc s evs h⟩

/-- C7 witness: concrete double close against a transport whose close
request fails, followed by an arbitrary event. -/
theorem close_flag_one_way_and_idempotent_witness :
    ((WebSocketCore.close pcFail s0 1000 none).1.1).is_closing = true
    ∧ (WebSocketCore.close pcFail ((WebSocketCore.close pcFail s0 1000 none).1.1)
          1000 none).1.1
        = (WebSocketCore.close pcFail s0 1000 none).1.1
    ∧ (WebSocketCore.close pcFail ((WebSocketCore.close pcFail s0 1000 none).1.1)
          1000 none).2
        = (WebSocketCore.close pcFail s0 1000 none).2
    ∧ (s0.is_closing = true → ((run pcFail s0 [Event.notifyOpen]).1).is_closing = true) :=
  close_flag_one_way_and_idempotent pcFail s0 1000 none [Event.notifyOpen]

/-- C8 counterexample: on the default configuration (`connect(url).build()`
with no user callbacks, reconnect on), initial construction stores only two
adapters — open and close, which the reconnect config requires — not four:
the message and error `Option`s are `None` (core.rs lines 79-82 and
132-135). -/
theorem default_config_installs_two_adapters_not_four :
    sDef.cbStore.countP (fun slot => slot.isSome) = 2 ∧ (2 : Nat) ≠ 4 := by
  decide

/-- C8 as amended: every handle replacement replaces the old generation's
store wholesale with exactly four slots, one per notification kind —
each occupied only when the corresponding user callback is present, or, for
the open and close kinds, when a reconnect config is present — and every
stored adapter is bound to the new handle's generation, so all adapters of
the discarded handle are dropped. The same store layout is produced at
initial construction. -/
theorem rebind_replaces_store_with_four_slots (pc : TransportCloseFn) (s : CoreState)
    (sample : Nat) (flags : HandlerFlags) (rc : Option ReconnectConfig)
    (h : s.is_closing = false) :
    ((step pc s (.retryFire true sample)).1).cbStore
        = init_new_websocket s.flags s.reconnect.isSome (s.wsGen + 1)
    ∧ ((step pc s (.retryFire true sample)).1).wsGen = s.wsGen + 1
    ∧ (init_new_websocket s.flags s.reconnect.isSome (s.wsGen + 1)).length = 4
    ∧ (∀ slot ∈ ((step pc s (.retryFire true sample)).1).cbStore, ∀ k g,
        slot = some (k, g) → g = s.wsGen + 1)
    ∧ (initialCoreState flags rc).cbStore = init_new_websocket flags rc.isSome 0 := by
  have hs : (step pc s (.retryFire true sample)).1
      = { s with
            wsGen := s.wsGen + 1
            cbStore := init_new_websocket s.flags s.reconnect.isSome (s.wsGen + 1) } := by
    simp [step, retry_fire_event, h]
  refine ⟨by rw [hs], by rw [hs], rfl, ?_, rfl⟩
  rw [hs]
  intro slot hmem k g hsg
  exact mem_init_new_websocket_gen s.flags s.reconnect.isSome (s.wsGen + 1) slot hmem k g hsg

/-- C8 witness: a successful retry on the fully configured core rebinds a
four-slot store at the next generation. -/
theorem rebind_replaces_store_with_four_slots_witness :
    ((step pcOk s0 (.retryFire true 0)).1).cbStore
        = init_new_websocket s0.flags s0.reconnect.isSome (s0.wsGen + 1)
    ∧ ((step pcOk s0 (.retryFire true 0)).1).wsGen = s0.wsGen + 1
    ∧ (init_new_websocket s0.flags s0.reconnect.isSome (s0.wsGen + 1)).length = 4
    ∧ (∀ slot ∈ ((step pcOk s0 (.retryFire true 0)).1).cbStore, ∀ k g,
        slot = some (k, g) → g = s0.wsGen + 1)
    ∧ (initialCoreState allFlags (none : Option ReconnectConfig)).cbStore
        = init_new_websocket allFlags (none : Option ReconnectConfig).isSome 0 :=
  rebind_replaces_store_with_four_slots pcOk s0 0 allFlags none rfl

/-- C9: a message notification delivered to an installed message adapter
invokes the user's callback exactly once — the step emits a single
`userOnMessage` action — with `Text(s)` for a string payload and with
`Binary(b)` otherwise, where the decoded bytes equal the received payload
exactly (the zeroed buffer of matching length is overwritten in full,
core.rs lines 98-102). -/
theorem onmessage_invokes_user_callback_exactly_once (pc : TransportCloseFn)
    (s : CoreState) (data : JsData) (t : String) (bytes : List Nat)
    (h : s.flags.hasOnMessage = true) :
    (step pc s (.notifyMessage data)).2 = [Action.userOnMessage (onmessageDecode data)]
    ∧ onmessageDecode (.str t) = WsMessage.Text t
    ∧ onmessageDecode (.buf bytes) = WsMessage.Binary bytes := by
  refine ⟨?_, rfl, ?_⟩
  · simp [step, onmessage_event, h]
  · simp [onmessageDecode, u8buf_copy_to_replicate]

/-- C9 witness: concrete text and binary frames on the fully configured
core. -/
theorem onmessage_invokes_user_callback_exactly_once_witness :
    (step pcOk s0 (.notifyMessage (.buf [1, 2, 3]))).2
        = [Action.userOnMessage (onmessageDecode (.buf [1, 2, 3]))]
    ∧ onmessageDecode (.str (String.mk [])) = WsMessage.Text (String.mk [])
    ∧ onmessageDecode (.buf [7, 8]) = WsMessage.Binary [7, 8] :=
  onmessage_invokes_user_callback_exactly_once pcOk s0 (.buf [1, 2, 3])
    (String.mk []) [7, 8] rfl

/-- C10: `close()` writes the suppression flag before the transport-level
close request (the flag action precedes the request in the emitted order),
and the flag stands whatever the transport answers — including an error
result — so reconnects stay suppressed even when the close request fails;
dropping the `WebSocket` handle takes the same path with the defaulted code
1005 and a discarded result. -/
theorem close_sets_flag_before_transport_request (pc : TransportCloseFn)
    (s : CoreState) (code : Nat) (reason : Option String) :
    (WebSocketCore.close pc s code reason).1.2
        = [Action.setClosingFlag, Action.transportClose code reason]
    ∧ ((WebSocketCore.close pc s code reason).1.1).is_closing = true
    ∧ ((WebSocketCore.close pcFail s code reason).1.1).is_closing = true
    ∧ (WebSocketCore.close pcFail s code reason).2 = .error .err
    ∧ ((WebSocket.drop pc s).1).is_closing = true
    ∧ WebSocket.drop pc s = (WebSocketCore.close pc s 1005 none).1 :=
  ⟨rfl, rfl, rfl, rfl, rfl, rfl⟩

/-- C10 witness: concrete close with an always-failing transport close. -/
theorem close_sets_flag_before_transport_request_witness :
    (WebSocketCore.close pcFail sDef 3000 none).1.2
        = [Action.setClosingFlag, Action.transportClose 3000 none]
    ∧ ((WebSocketCore.close pcFail sDef 3000 none).1.1).is_closing = true
    ∧ ((WebSocketCore.close pcFail sDef 3000 none).1.1).is_closing = true
    ∧ (WebSocketCore.close pcFail sDef 3000 none).2 = .error .err
    ∧ ((WebSocket.drop pcFail sDef).1).is_closing = true
    ∧ WebSocket.drop pcFail sDef = (WebSocketCore.close pcFail sDef 1005 none).1 :=
  close_sets_flag_before_transport_request pcFail sDef 3000 none

end Gloo
